import Mathlib

/-!
Verification of the cluster-orchestration core of the
kubernetes-automation-api repository (src/api/model.py, src/api/controller.py,
src/api/views.py) against its natural-language specification.

The Python manifest dictionaries are embedded as a JSON-like `Value` type.
Python exceptions become a `PyError` type; a function that can raise returns
`Except PyError _`. Calls against the live cluster (Kubernetes API client,
requests, helm) are external collaborators: their outcomes are passed in as
explicit parameters, and the embedded function reproduces the source control
flow on those outcomes. Cluster writes are recorded in an explicit
`ClusterState`, a list of (kind, name) pairs in apply order.
-/

namespace KubeAPI

/-- JSON-like manifest values, the shape of the Python dict literals in model.py. -/
inductive Value where
  | str (s : String)
  | nat (n : Nat)
  | null
  | obj (fields : List (String × Value))
  | arr (items : List Value)

/-- First value bound to a key in an association list of manifest fields. -/
def lookupField : List (String × Value) → String → Option Value
  | [], _ => Option.none
  | (k, v) :: rest, key => if k = key then some v else lookupField rest key

/-- Field access on an object value. -/
def Value.get : Value → String → Option Value
  | .obj fields, key => lookupField fields key
  | _, _ => Option.none

/-- Index access on an array value. -/
def Value.atIdx : Value → Nat → Option Value
  | .arr items, i => items.get? i
  | _, _ => Option.none

/-- One navigation step into a manifest: an object key or an array index. -/
inductive Step where
  | key (k : String)
  | idx (i : Nat)

/-- Walk a path of keys and indices down a manifest value. -/
def Value.walk : Value → List Step → Option Value
  | v, [] => some v
  | v, .key k :: rest =>
    match v.get k with
    | some w => w.walk rest
    | Option.none => Option.none
  | v, .idx i :: rest =>
    match v.atIdx i with
    | some w => w.walk rest
    | Option.none => Option.none

/-- Length of the array found at a path, when the path leads to an array. -/
def Value.lenAt (v : Value) (p : List Step) : Option Nat :=
  match v.walk p with
  | some (.arr items) => some items.length
  | _ => Option.none

/-- Python exceptions relevant to this code base. `apiError` is the Kubernetes
client ApiException with its status and body; `httpException` is FastAPI's
HTTPException with status code and detail; `raised` is any other exception
propagating uncaught. -/
inductive PyError where
  | apiError (status : Nat) (body : String)
  | httpException (status : Nat) (detail : String)
  | typeError (msg : String)
  | attributeError (msg : String)
  | requestException (msg : String)
  | raised (msg : String)

/-- Cluster state as the ordered list of (kind, name) resources applied so far. -/
abbrev ClusterState := List (String × String)

/-- Python str() of an optional string as rendered inside an f-string:
None renders as the four letters "None". -/
def pyStr : Option String → String
  | some s => s
  | Option.none => "None"

/-- A Python optional string placed as a dict value: None becomes null. -/
def pyStrValue : Option String → Value
  | some s => .str s
  | Option.none => .null

/-- Python str.replace with the single-character pattern "/" as used at
model.py line 181: every slash in the string becomes a dash. -/
def slug (s : String) : String :=
  String.mk (s.data.map (fun c => if c = '/' then '-' else c))

/-- model.py line 181: the derived workload name,
f-string of image_name.replace("/", "-") and version joined by a dash. -/
def deployment_name (image_name version : String) : String :=
  slug image_name ++ "-" ++ version

/-- Modelled from the spec words (section 3, WorkloadSpec): identity derived
deterministically as slug(imageName) + "-" + version, the image name with
path separators replaced. -/
def spec_workload_name (imageName version : String) : String :=
  String.mk (imageName.data.map (fun c => if c = '/' then '-' else c)) ++ "-" ++ version

/-- The Deployment manifest dict built by deploy_image (model.py lines 183-207). -/
def deployment_manifest (ns image_name version : String) (port : Nat) : Value :=
  let name := deployment_name image_name version
  .obj [
    ("apiVersion", .str "apps/v1"),
    ("kind", .str "Deployment"),
    ("metadata", .obj [("name", .str name), ("namespace", .str ns)]),
    ("spec", .obj [
      ("replicas", .nat 1),
      ("selector", .obj [("matchLabels", .obj [("app", .str name)])]),
      ("template", .obj [
        ("metadata", .obj [("labels", .obj [("app", .str name)])]),
        ("spec", .obj [
          ("containers", .arr [
            .obj [
              ("name", .str name),
              ("image", .str (image_name ++ ":" ++ version)),
              ("ports", .arr [.obj [("containerPort", .nat port)]]),
              ("resources", .obj [
                ("requests", .obj [("cpu", .str "100m"), ("memory", .str "128Mi")]),
                ("limits", .obj [("cpu", .str "500m"), ("memory", .str "512Mi")])
              ])
            ]
          ])
        ])
      ])
    ])
  ]

/-- The Service manifest dict built by deploy_image (model.py lines 209-218). -/
def service_manifest (ns image_name version : String) (port : Nat) : Value :=
  let name := deployment_name image_name version
  .obj [
    ("apiVersion", .str "v1"),
    ("kind", .str "Service"),
    ("metadata", .obj [("name", .str name), ("namespace", .str ns)]),
    ("spec", .obj [
      ("selector", .obj [("app", .str name)]),
      ("ports", .arr [.obj [("protocol", .str "TCP"), ("port", .nat port), ("targetPort", .nat port)]]),
      ("type", .str "NodePort")
    ])
  ]

/-- The ScaledObject manifest dict built by deploy_image (model.py lines
220-247). Its trigger list is written out literally in the source: a cpu
utilization trigger at "80" followed by a memory utilization trigger at "80". -/
def deploy_scaled_object_manifest (ns image_name version : String) : Value :=
  let name := deployment_name image_name version
  .obj [
    ("apiVersion", .str "keda.sh/v1alpha1"),
    ("kind", .str "ScaledObject"),
    ("metadata", .obj [("name", .str (name ++ "-scaledobject")), ("namespace", .str ns)]),
    ("spec", .obj [
      ("minReplicaCount", .nat 1),
      ("scaleTargetRef", .obj [("name", .str name), ("kind", .str "Deployment")]),
      ("triggers", .arr [
        .obj [("type", .str "cpu"), ("metricType", .str "Utilization"),
              ("metadata", .obj [("value", .str "80")])],
        .obj [("type", .str "memory"), ("metricType", .str "Utilization"),
              ("metadata", .obj [("value", .str "80")])]
      ])
    ])
  ]

/-- An EventDriven policy trigger as the spec describes it (section 3):
a metric type and a utilization target. -/
structure SpecTrigger where
  mtype : String
  utilizationTarget : Nat

/-- Modelled from the spec words (sections 4.1 and 8): the trigger list the
scaling manifest should carry for an EventDriven policy, one utilization
trigger entry per configured metric type, in the configured order. -/
def spec_triggers_value (triggers : List SpecTrigger) : Value :=
  .arr (triggers.map fun t =>
    .obj [("type", .str t.mtype), ("metricType", .str "Utilization"),
          ("metadata", .obj [("value", .str (toString t.utilizationTarget))])])

/-- The metric types configured by a policy, in order. -/
def spec_trigger_types (triggers : List SpecTrigger) : List String :=
  triggers.map (fun t => t.mtype)

/-- The type fields of the entries of a trigger array value, in order. -/
def trigger_types : Value → List String
  | .arr items => items.filterMap (fun t =>
      match t.get "type" with
      | some (.str s) => some s
      | _ => Option.none)
  | _ => []

/-- The trigger type list of the ScaledObject manifest deploy_image builds. -/
def scaled_object_trigger_types (ns image_name version : String) : List String :=
  match (deploy_scaled_object_manifest ns image_name version).walk [.key "spec", .key "triggers"] with
  | some t => trigger_types t
  | Option.none => []

/-- model.py lines 249-262: deploy_image applies, inside a single try block,
the Deployment, then the Service, then the ScaledObject. Each cluster call's
outcome is passed in; an ApiException from any of them is re-raised as an
HTTPException whose detail starts with "Error creating deployment: ", and a
resource created before the failing call stays created (no rollback). -/
def deploy_image_run (ns image_name version : String) (port : Nat)
    (deployOut serviceOut scaledOut : Except PyError Unit) (st : ClusterState) :
    Except PyError String × ClusterState :=
  let name := deployment_name image_name version
  let _ := deployment_manifest ns image_name version port
  let _ := service_manifest ns image_name version port
  let _ := deploy_scaled_object_manifest ns image_name version
  match deployOut with
  | .error (.apiError _ body) =>
      (.error (.httpException 500 ("Error creating deployment: " ++ body)), st)
  | .error e => (.error e, st)
  | .ok _ =>
    let st1 := st ++ [("Deployment", name)]
    match serviceOut with
    | .error (.apiError _ body) =>
        (.error (.httpException 500 ("Error creating deployment: " ++ body)), st1)
    | .error e => (.error e, st1)
    | .ok _ =>
      let st2 := st1 ++ [("Service", name)]
      match scaledOut with
      | .error (.apiError _ body) =>
          (.error (.httpException 500 ("Error creating deployment: " ++ body)), st2)
      | .error e => (.error e, st2)
      | .ok _ =>
        let st3 := st2 ++ [("ScaledObject", name ++ "-scaledobject")]
        (.ok ("Deployment " ++ name ++ " created successfully."), st3)

/-- Outcome of the read_namespaced_deployment call inside
check_deployment_exists: the Deployment was found, the client raised an
ApiException with some HTTP status (404 not found, 401 auth, 500, ...), or
some exception outside ApiException occurred. -/
inductive ReadOutcome where
  | found
  | apiException (status : Nat)
  | otherFailure (msg : String)

/-- model.py lines 159-164: check_deployment_exists returns True when the
read succeeds and False on ANY ApiException, whatever its status; only an
exception outside ApiException propagates. -/
def check_deployment_exists (ns name : String) (read : ReadOutcome) : Except PyError Bool :=
  let _ := ns
  let _ := name
  match read with
  | .found => .ok true
  | .apiException _ => .ok false
  | .otherFailure msg => .error (.raised msg)

/-- model.py lines 166-174: verify_installation probes the metrics-server
Deployment in kube-system and the keda-operator Deployment in keda. -/
def verify_installation (metricsRead kedaRead : ReadOutcome) : Except PyError (Bool × Bool) :=
  match check_deployment_exists "kube-system" "metrics-server" metricsRead with
  | .error e => .error e
  | .ok m =>
    match check_deployment_exists "keda" "keda-operator" kedaRead with
    | .error e => .error e
    | .ok k => .ok (m, k)

/-- model.py lines 45-72: install_dependencies runs the Metrics Server step
(when requested), then the KEDA step (when requested). Each step's outcome is
passed in. An ApiException inside a step is re-raised as an HTTPException
naming the dependency, which aborts the call; any other raise also aborts.
The report list is returned only when nothing raised. -/
def install_dependencies (metric_server keda : Bool)
    (metricsStep kedaStep : Except PyError Unit) : Except PyError (List String) :=
  let step1 : Except PyError (List String) :=
    if metric_server then
      match metricsStep with
      | .ok _ => .ok ["Metrics Server installed successfully."]
      | .error (.apiError _ body) =>
          .error (.httpException 500 ("Failed to install Metrics Server: " ++ body))
      | .error e => .error e
    else .ok []
  match step1 with
  | .error e => .error e
  | .ok results =>
    if keda then
      match kedaStep with
      | .ok _ => .ok (results ++ ["KEDA installed successfully."])
      | .error (.apiError _ body) =>
          .error (.httpException 500 ("Failed to install KEDA: " ++ body))
      | .error e => .error e
    else .ok results

/-- The ScaledObject manifest dict built by autoscale_deployment (model.py
lines 269-296). The deployment name parameter is optional; inside the
f-string a missing name renders as "None", and as the scaleTargetRef name it
is stored as null. -/
def autoscale_scaled_object_manifest (ns : String) (dname : Option String) : Value :=
  .obj [
    ("apiVersion", .str "keda.sh/v1alpha1"),
    ("kind", .str "ScaledObject"),
    ("metadata", .obj [("name", .str (pyStr dname ++ "-scaledobject")), ("namespace", .str ns)]),
    ("spec", .obj [
      ("minReplicaCount", .nat 1),
      ("scaleTargetRef", .obj [("name", pyStrValue dname), ("kind", .str "Deployment")]),
      ("triggers", .arr [
        .obj [("type", .str "cpu"), ("metricType", .str "Utilization"),
              ("metadata", .obj [("value", .str "80")])],
        .obj [("type", .str "memory"), ("metricType", .str "Utilization"),
              ("metadata", .obj [("value", .str "80")])]
      ])
    ])
  ]

/-- model.py lines 264-308: autoscale_deployment builds the single
ScaledObject manifest above and issues one create_namespaced_custom_object
call. It never lists the Deployments of the namespace (its signature receives
no Deployment list and its body performs no list call), so the model takes
only the one create call's outcome. An ApiException becomes an HTTPException
with detail starting "Error creating HPA: ". -/
def autoscale_deployment (ns : String) (dname : Option String)
    (createOut : Except PyError Unit) (st : ClusterState) :
    Except PyError String × ClusterState :=
  let _ := autoscale_scaled_object_manifest ns dname
  match createOut with
  | .ok _ =>
      (.ok "Autoscaling applied successfully.",
       st ++ [("ScaledObject", pyStr dname ++ "-scaledobject")])
  | .error (.apiError _ body) =>
      (.error (.httpException 500 ("Error creating HPA: " ++ body)), st)
  | .error e => (.error e, st)

/-- The attributes of a KubernetesCluster instance: the methods defined on the
class in model.py plus the fields set in its constructor and in connect. -/
def kubernetesClusterAttrs : List String :=
  ["connect", "get_contexts", "install_dependencies", "apply_yaml_from_url",
   "get_github_raw_content", "install_chart", "check_deployment_exists",
   "verify_installation", "deploy_image", "autoscale_deployment", "get_status",
   "api_client", "apps_v1", "core_v1", "autoscaling_v1", "helm_executable",
   "custom_api"]

/-- Python attribute lookup on a KubernetesCluster instance: a name not among
its attributes raises AttributeError before any call can happen. -/
def cluster_getattr (name : String) : Except PyError Unit :=
  if name ∈ kubernetesClusterAttrs then .ok ()
  else .error (.attributeError ("KubernetesCluster object has no attribute " ++ name))

/-- controller.py lines 26-27: pause_autoscaling evaluates
self.cluster.pause_autoscale(namespace, deployment). The attribute lookup of
pause_autoscale happens first, and KubernetesCluster defines no such method,
so the whole call is that lookup and the cluster state is untouched. -/
def controller_pause_autoscaling (ns : String) (deployment : Option String)
    (st : ClusterState) : Except PyError Unit × ClusterState :=
  let _ := ns
  let _ := deployment
  (cluster_getattr "pause_autoscale", st)

/-- model.py lines 100-123: get_github_raw_content rewrites a GitHub page URL
to its raw-content form, fetches it, and on ANY requests exception prints the
error and returns None instead of raising. -/
def github_raw_url (url : String) : String :=
  if url.startsWith "https://github.com" then
    (url.replace "github.com" "raw.githubusercontent.com").replace "/blob" ""
  else url

/-- model.py lines 112-123: the fetch of the raw URL either yields the body
text or raises a requests exception; the exception is swallowed and the
function returns None. -/
def get_github_raw_content (url : String)
    (fetch : String → Except PyError String) : Option String :=
  match fetch (github_raw_url url) with
  | .ok content => some content
  | .error _ => Option.none

/-- model.py lines 142-150: the helm upgrade command install_chart builds.
Each command-line element is an optional string because Python would place
None in the list when the remote values fetch returned None. When
remoteValues is given, the fetched document (or None) is appended after -f;
otherwise each inline key=value pair is appended after --set. -/
def install_chart_cmd (helm release_name chart_name ns : String)
    (values : List (String × String)) (remoteValues : Option String)
    (fetch : String → Except PyError String) : List (Option String) :=
  let base : List (Option String) :=
    [some helm, some "upgrade", some "--install", some release_name,
     some (release_name ++ "/" ++ chart_name), some "--namespace", some ns,
     some "--create-namespace"]
  match remoteValues with
  | some rv =>
      base ++ [some "-f", get_github_raw_content rv fetch]
  | Option.none =>
      base ++ values.flatMap (fun kv => [some "--set", some (kv.1 ++ "=" ++ kv.2)])

/-- A fetch collaborator whose every request fails with a connection error. -/
def failing_fetch : String → Except PyError String :=
  fun _ => .error (.requestException "connection error")

/-- A Python callable's positional signature: how many parameters have no
default and how many have one. -/
structure PySignature where
  required : Nat
  optional : Nat

/-- Python positional-argument binding: a call raises TypeError before the
body runs when the argument count does not fit the signature. -/
def bind_positional (sig : PySignature) (nargs : Nat) : Except PyError Unit :=
  if nargs < sig.required then
    .error (.typeError "missing required positional arguments")
  else if sig.required + sig.optional < nargs then
    .error (.typeError "too many positional arguments")
  else .ok ()

/-- model.py line 45: install_dependencies(self, metric_server, keda,
remoteValues, values) — four required parameters beyond self, no defaults. -/
def install_dependencies_sig : PySignature := ⟨4, 0⟩

/-- model.py line 176: deploy_image(self, namespace, image_name, version,
port) — four required parameters beyond self, no defaults. -/
def deploy_image_sig : PySignature := ⟨4, 0⟩

/-- A Python method call: bind the positional arguments against the
signature; only when binding succeeds does the body run against the cluster
state. -/
def py_call (sig : PySignature) (nargs : Nat)
    (body : ClusterState → Except PyError Unit × ClusterState) (st : ClusterState) :
    Except PyError Unit × ClusterState :=
  match bind_positional sig nargs with
  | .error e => (.error e, st)
  | .ok _ => body st

/-- controller.py line 15: the controller forwards exactly two positional
arguments (metric_server, keda) to the model's install_dependencies. -/
def controller_install_dependencies
    (body : ClusterState → Except PyError Unit × ClusterState) (st : ClusterState) :
    Except PyError Unit × ClusterState :=
  py_call install_dependencies_sig 2 body st

/-- controller.py line 21: the controller forwards five positional arguments
(namespace, image_name, version, port, scale_metric) to the model's
deploy_image. -/
def controller_deploy_application
    (body : ClusterState → Except PyError Unit × ClusterState) (st : ClusterState) :
    Except PyError Unit × ClusterState :=
  py_call deploy_image_sig 5 body st

/-- C1: for WorkloadSpec (namespace "default", imageName "org/app", version
"1.2.0", containerPort 8080) with the EventDriven policy of two utilization
triggers cpu at 80 then memory at 80 and minReplicaCount 1, deploy_image
produces a Deployment named "org-app-1.2.0", a Service of the same name, and
a ScaledObject named "org-app-1.2.0-scaledobject", and applies them in
exactly that order; the built scaling manifest carries exactly that policy. -/
theorem C1_deploy_workload_end_to_end :
    deploy_image_run "default" "org/app" "1.2.0" 8080 (.ok ()) (.ok ()) (.ok ()) []
      = (.ok "Deployment org-app-1.2.0 created successfully.",
         [("Deployment", "org-app-1.2.0"), ("Service", "org-app-1.2.0"),
          ("ScaledObject", "org-app-1.2.0-scaledobject")])
    ∧ (deployment_manifest "default" "org/app" "1.2.0" 8080).walk [.key "metadata", .key "name"]
        = some (.str "org-app-1.2.0")
    ∧ (service_manifest "default" "org/app" "1.2.0" 8080).walk [.key "metadata", .key "name"]
        = some (.str "org-app-1.2.0")
    ∧ (deploy_scaled_object_manifest "default" "org/app" "1.2.0").walk [.key "metadata", .key "name"]
        = some (.str "org-app-1.2.0-scaledobject")
    ∧ (deploy_scaled_object_manifest "default" "org/app" "1.2.0").walk [.key "spec", .key "triggers"]
        = some (spec_triggers_value [⟨"cpu", 80⟩, ⟨"memory", 80⟩])
    ∧ (deploy_scaled_object_manifest "default" "org/app" "1.2.0").walk
        [.key "spec", .key "minReplicaCount"] = some (.nat 1) :=
  ⟨rfl, rfl, rfl, rfl, rfl, rfl⟩

/-- C2 counterexample: a cluster read that fails with an authentication
ApiException (status 401) makes check_deployment_exists return the value
false, not a propagated error — refuting the claim that any cluster-access
failure other than not-found yields an error distinct from false. -/
theorem C2_counterexample_auth_failure_is_false :
    check_deployment_exists "kube-system" "metrics-server" (ReadOutcome.apiException 401)
      = Except.ok false := rfl

/-- C2 amended: a read that raises ApiException — whether not-found (404) or
any other API failure such as an authentication failure (401) — yields false;
only an exception outside ApiException propagates as an error. A found
Deployment yields true, and verify_installation reports false for an absent
Deployment. -/
theorem C2_check_deployment_exists_behavior (ns name : String) (status : Nat) (msg : String) :
    check_deployment_exists ns name .found = .ok true
    ∧ check_deployment_exists ns name (.apiException status) = .ok false
    ∧ check_deployment_exists ns name (.otherFailure msg) = .error (.raised msg)
    ∧ verify_installation (.apiException 404) .found = .ok (false, true) :=
  ⟨rfl, rfl, rfl, rfl⟩

/-- C3 counterexample: with both dependencies requested, the Metrics Server
step succeeding and the KEDA step failing with an ApiException, the call
aborts as a whole with an HTTP error — it returns no report recording the
Metrics Server success — refuting the claim that the call does not abort. -/
theorem C3_counterexample_partial_failure_aborts :
    install_dependencies true true (.ok ()) (.error (.apiError 500 "keda failed"))
      = .error (.httpException 500 "Failed to install KEDA: keda failed") := rfl

/-- C3 amended: if a requested dependency's installation raises an
ApiException, install_dependencies aborts with an HTTP error naming that
dependency: a KEDA failure discards the already-achieved Metrics Server
success from the response, and a Metrics Server failure prevents the KEDA
attempt entirely; the report lists both dependencies only when both steps
succeed. -/
theorem C3_install_dependencies_aborts_on_failure
    (status : Nat) (body : String) (kedaStep : Except PyError Unit) :
    install_dependencies true true (.ok ()) (.error (.apiError status body))
      = .error (.httpException 500 ("Failed to install KEDA: " ++ body))
    ∧ install_dependencies true true (.error (.apiError status body)) kedaStep
      = .error (.httpException 500 ("Failed to install Metrics Server: " ++ body))
    ∧ install_dependencies true true (.ok ()) (.ok ())
      = .ok ["Metrics Server installed successfully.", "KEDA installed successfully."] :=
  ⟨rfl, rfl, rfl⟩

/-- C10: through the controller, install_dependencies binds 2 positional
arguments against a 4-required-parameter signature and deploy_application
binds 5 against a 4-parameter signature; both raise TypeError at binding,
before any body runs, so whatever the body would have done to the cluster,
the state comes back unchanged. -/
theorem C10_controller_calls_raise_type_error
    (bodyI bodyD : ClusterState → Except PyError Unit × ClusterState) (st : ClusterState) :
    controller_install_dependencies bodyI st
      = (.error (.typeError "missing required positional arguments"), st)
    ∧ controller_deploy_application bodyD st
      = (.error (.typeError "too many positional arguments"), st) :=
  ⟨rfl, rfl⟩

/-- C4 (code bug): calling autoscale_deployment on namespace "default" with
deploymentName omitted does not target the Deployments listed in the
namespace — its body performs no list call at all. It issues a single create
of a ScaledObject whose name interpolates Python None as the text "None",
yielding "None-scaledobject", with a null scaleTargetRef name. -/
theorem C4_omitted_name_creates_none_scaledobject :
    autoscale_deployment "default" Option.none (.ok ()) []
      = (.ok "Autoscaling applied successfully.", [("ScaledObject", "None-scaledobject")])
    ∧ (autoscale_scaled_object_manifest "default" Option.none).walk [.key "metadata", .key "name"]
        = some (.str "None-scaledobject")
    ∧ (autoscale_scaled_object_manifest "default" Option.none).walk
        [.key "spec", .key "scaleTargetRef", .key "name"] = some Value.null :=
  ⟨rfl, rfl, rfl⟩

/-- C5 (code bug): every call to the controller's pause_autoscaling raises
AttributeError, because KubernetesCluster defines no pause_autoscale method;
no scaling resource is read, removed, or neutralized, and the cluster state
is unchanged — so even a target with no scaling resource gets an error, not
success. -/
theorem C5_pause_autoscaling_attribute_error
    (ns : String) (deployment : Option String) (st : ClusterState) :
    controller_pause_autoscaling ns deployment st
      = (.error (.attributeError "KubernetesCluster object has no attribute pause_autoscale"), st) :=
  rfl

/-- C6 counterexample: for the EventDriven policy configuring the single
trigger memory at 80, the generated scaling manifest does not contain one
trigger entry per configured metric type — its trigger types are cpu then
memory, including a cpu trigger the policy never configured. -/
theorem C6_counterexample_trigger_list_fixed :
    scaled_object_trigger_types "default" "org/app" "1.2.0"
      ≠ spec_trigger_types [⟨"memory", 80⟩] := by decide

/-- C6 amended: for every EventDriven policy, the generated scaling manifest
carries the same fixed trigger list — a cpu utilization trigger at 80
followed by a memory utilization trigger at 80 — independent of the policy's
configured triggers; it coincides with the per-policy trigger list for the
one policy that configures cpu at 80 then memory at 80. -/
theorem C6_triggers_are_fixed (ns image_name version : String) :
    (deploy_scaled_object_manifest ns image_name version).walk [.key "spec", .key "triggers"]
      = some (spec_triggers_value [⟨"cpu", 80⟩, ⟨"memory", 80⟩])
    ∧ scaled_object_trigger_types ns image_name version = ["cpu", "memory"]
    ∧ spec_trigger_types [⟨"cpu", 80⟩, ⟨"memory", 80⟩]
        = scaled_object_trigger_types ns image_name version :=
  ⟨rfl, rfl, rfl⟩

/-- C7: for every WorkloadSpec, the generated Deployment manifest has exactly
one replica, selector and labels keyed by the derived workload name, a single
container whose image is imageName:version and whose single port is the
provided container port, and the fixed resource profile of requests cpu 100m
and memory 128Mi and limits cpu 500m and memory 512Mi. -/
theorem C7_deployment_manifest_shape (ns image_name version : String) (port : Nat) :
    (deployment_manifest ns image_name version port).walk [.key "spec", .key "replicas"]
      = some (.nat 1)
    ∧ (deployment_manifest ns image_name version port).walk
        [.key "spec", .key "selector", .key "matchLabels", .key "app"]
      = some (.str (deployment_name image_name version))
    ∧ (deployment_manifest ns image_name version port).walk
        [.key "spec", .key "template", .key "metadata", .key "labels", .key "app"]
      = some (.str (deployment_name image_name version))
    ∧ (deployment_manifest ns image_name version port).lenAt
        [.key "spec", .key "template", .key "spec", .key "containers"] = some 1
    ∧ (deployment_manifest ns image_name version port).walk
        [.key "spec", .key "template", .key "spec", .key "containers", .idx 0, .key "image"]
      = some (.str (image_name ++ ":" ++ version))
    ∧ (deployment_manifest ns image_name version port).lenAt
        [.key "spec", .key "template", .key "spec", .key "containers", .idx 0, .key "ports"]
      = some 1
    ∧ (deployment_manifest ns image_name version port).walk
        [.key "spec", .key "template", .key "spec", .key "containers", .idx 0,
         .key "ports", .idx 0, .key "containerPort"]
      = some (.nat port)
    ∧ (deployment_manifest ns image_name version port).walk
        [.key "spec", .key "template", .key "spec", .key "containers", .idx 0,
         .key "resources", .key "requests", .key "cpu"] = some (.str "100m")
    ∧ (deployment_manifest ns image_name version port).walk
        [.key "spec", .key "template", .key "spec", .key "containers", .idx 0,
         .key "resources", .key "requests", .key "memory"] = some (.str "128Mi")
    ∧ (deployment_manifest ns image_name version port).walk
        [.key "spec", .key "template", .key "spec", .key "containers", .idx 0,
         .key "resources", .key "limits", .key "cpu"] = some (.str "500m")
    ∧ (deployment_manifest ns image_name version port).walk
        [.key "spec", .key "template", .key "spec", .key "containers", .idx 0,
         .key "resources", .key "limits", .key "memory"] = some (.str "512Mi") :=
  ⟨rfl, rfl, rfl, rfl, rfl, rfl, rfl, rfl, rfl, rfl, rfl⟩

/-- C8: the Deployment manifest and the Service manifest carry the same
derived workload name — as their metadata name and as their selectors — equal
to the spec's slug(imageName) + "-" + version with path separators replaced,
and the derivation is a pure function, so repeated calls with identical input
yield the identical name. -/
theorem C8_names_agree_and_deterministic (ns image_name version : String) (port : Nat) :
    (deployment_manifest ns image_name version port).walk [.key "metadata", .key "name"]
      = some (.str (spec_workload_name image_name version))
    ∧ (service_manifest ns image_name version port).walk [.key "metadata", .key "name"]
      = some (.str (spec_workload_name image_name version))
    ∧ (deployment_manifest ns image_name version port).walk
        [.key "spec", .key "selector", .key "matchLabels", .key "app"]
      = (service_manifest ns image_name version port).walk [.key "spec", .key "selector", .key "app"]
    ∧ deployment_name image_name version = spec_workload_name image_name version
    ∧ deployment_name image_name version = deployment_name image_name version :=
  ⟨rfl, rfl, rfl, rfl, rfl⟩

/-- C9 counterexample: a failure to fetch a remote values document does not
surface as an error to the caller: get_github_raw_content swallows the
requests exception and returns the non-error value None. -/
theorem C9_counterexample_fetch_failure_swallowed :
    get_github_raw_content "https://github.com/kedacore/keda/blob/main/values.yaml" failing_fetch
      = Option.none := rfl

/-- C9 amended: a failure to fetch a remote values document is silently
converted to None by get_github_raw_content rather than propagating as an
error, and install_chart then places that None into the helm command as the
-f argument instead of reporting a fetch failure. -/
theorem C9_fetch_failure_becomes_none
    (url helm release chart ns msg : String) (values : List (String × String)) :
    get_github_raw_content url (fun _ => .error (.requestException msg)) = Option.none
    ∧ install_chart_cmd helm release chart ns values (some url)
        (fun _ => .error (.requestException msg))
      = [some helm, some "upgrade", some "--install", some release,
         some (release ++ "/" ++ chart), some "--namespace", some ns,
         some "--create-namespace", some "-f", Option.none] :=
  ⟨rfl, rfl⟩

end KubeAPI
